import Mathlib

/-!
Verification development for the `reloading` live source-reload engine
(src/reloading/reloading.py).  Each definition is a shallow embedding of
one function of the source file; the doc comment of a definition names
the source symbol and lines it embeds and states which effectful parts
(file reads, stack frames, exec) are abstracted into explicit parameters.
-/

namespace Reloading

/-- Python exception values that the engine can surface, identified by
their class and message. -/
inductive PyError where
  | typeError (msg : String)
  | lookupError (msg : String)
  | exception (msg : String)
deriving DecidableEq, Repr

/-! ## ErrorRecovery: handle_exception (reloading.py lines 267-289)

`handle_exception` formats the active exception to stderr, prints a hint
and blocks on one line of operator input.  The displayed diagnostic text
is not modelled; the operator's input line is the `signal` parameter.
With `allow_exception = True` (line 275 sets it unconditionally), the
control flow of lines 282-289 is: input `k` (lowercased) returns True
(skip), input `e` raises a fresh
`Exception('Raise exception for file: "<fpath>"')`, anything else
returns False (retry). -/

/-- Outcome of one `handle_exception` call: return True (skip the
iteration), return False (retry), or raise a new generic Exception. -/
inductive HandleOutcome where
  | skipIter
  | retry
  | raiseNew (msg : String)
deriving DecidableEq, Repr

/-- Python `str.lower()` restricted to the per-character lowering used
on the one-line operator signal: lower every character of the string. -/
def py_lower (s : String) : String :=
  String.mk (s.data.map Char.toLower)

/-- Embedding of `handle_exception` (lines 267-289), restricted to its
return/raise behaviour.  `fpath` is the path argument; `signal` is the
line read from standard input. -/
def handle_exception (fpath signal : String) : HandleOutcome :=
  let signal_lower := py_lower signal
  if signal_lower = "k" then HandleOutcome.skipIter
  else if signal_lower = "e" then
    HandleOutcome.raiseNew ("Raise exception for file: \"" ++ fpath ++ "\"")
  else HandleOutcome.retry

/-! ## SourceStore: load_file (reloading.py lines 157-163)

`load_file` re-opens and re-reads the file while the read yields the
empty string, then returns the content with a newline appended.  The
successive results of `f.read()` are modelled by the list `reads`; an
everlasting sequence of empty reads makes the Python loop block forever,
modelled by `none`. -/

/-- Embedding of `load_file` (lines 157-163): return the first
non-empty read plus a trailing newline; `none` models blocking forever
when every read is empty. -/
def load_file : List String → Option String
  | [] => none
  | r :: rest => if r = "" then load_file rest else some (r ++ "\n")

/-! ## EnvironmentBinder: unique_name (reloading.py lines 134-136)

`unique_name(used)` is `max(used, key=len) + "0"`: take the first
longest name of `used` and append the character `0`. -/

/-- Python `max(used, key=len)` on a list of names: the first element of
maximal length (Python `max` keeps the earliest maximal element).  The
empty list is guarded by the callers (Python would raise ValueError);
the model returns `""` there. -/
def py_max_by_len : List String → String
  | [] => ""
  | [x] => x
  | x :: y :: rest =>
    let m := py_max_by_len (y :: rest)
    if m.length ≤ x.length then x else m

/-- Embedding of `unique_name` (lines 134-136). -/
def unique_name (used : List String) : String :=
  py_max_by_len used ++ "0"

/-! ## FragmentCompiler: decorator stripping (reloading.py lines 321-331) -/

/-- A decorator node as `get_decorator_name` distinguishes them: an
`ast.Name` node (has an `id` attribute) or an `ast.Call` node (name
taken from `func.id`). -/
inductive DecNode where
  | nameNode (id : String)
  | callNode (funcId : String)
deriving DecidableEq, Repr

/-- Embedding of `get_decorator_name` (lines 321-324). -/
def get_decorator_name : DecNode → String
  | DecNode.nameNode i => i
  | DecNode.callNode f => f

/-- Embedding of `strip_reloading_decorator` (lines 327-331): the
in-place rewrite of `func.decorator_list` by the list comprehension
`[dec for dec in func.decorator_list if get_decorator_name(dec) != "reloading"]`. -/
def strip_reloading_decorator (decorator_list : List DecNode) : List DecNode :=
  decorator_list.filter (fun dec => get_decorator_name dec ≠ "reloading")

/-! ## FragmentLocator: loop lookup (reloading.py lines 206-242)

An `ast.For` node is modelled by the data the locator inspects: the
dump strings of its `target` and `iter` fields (as produced by
`ast.dump`), whether its `iter` is a call to `reloading`
(`node.iter.func.id == "reloading"`), and its `lineno` attribute
(`getattr(node, "lineno", None)`).  The tree is the list of `ast.For`
nodes in `ast.walk` order that survive the `isinstance` checks. -/

/-- The fields of an `ast.For` candidate that
`isolate_loop_body_and_get_itervars` reads. -/
structure ForNode where
  targetDump : String
  iterDump : String
  isReloadingCall : Bool
  lineno : Option Nat
deriving DecidableEq, Repr

/-- Embedding of `get_loop_id` (lines 240-242):
`ast.dump(node.target) + "__" + ast.dump(node.iter)`. -/
def get_loop_id (node : ForNode) : String :=
  node.targetDump ++ "__" ++ node.iterDump

/-- Python `abs(a - b)` on the integer line numbers, on `Nat`. -/
def py_abs_dist (a b : Nat) : Nat :=
  if a ≤ b then b - a else a - b

/-- The candidate filter of lines 211-219: the node iterates a call to
`reloading` and either the recorded `loop_id` matches exactly
(`loop_id is not None and loop_id == get_loop_id(node)`) or the node
sits on the recorded line (`getattr(node, "lineno", None) == lineno`;
a missing lineno compares unequal to the int, as `None == lineno` is
False in Python). -/
def loop_candidate (lineno : Nat) (loop_id : Option String) (node : ForNode) : Bool :=
  node.isReloadingCall &&
    ((loop_id.isSome && loop_id = some (get_loop_id node)) || node.lineno = some lineno)

/-- `candidate_nodes.sort(key=lambda x: x[1])` followed by
`candidate_nodes[0]`: a stable sort by distance then taking the head
selects the first pair of minimal distance, which this fold computes
directly. -/
def select_min_dis : List (ForNode × Nat) → Option (ForNode × Nat)
  | [] => none
  | p :: rest =>
    some (rest.foldl (fun best cur => if cur.2 < best.2 then cur else best) p)

/-- Embedding of `isolate_loop_body_and_get_itervars` (lines 206-237):
collect the candidates with their distances
`abs(getattr(node, "lineno", 0) - lineno)`, raise LookupError when none
remain, otherwise pick the first minimal-distance candidate and return
its target (for `format_itervars`) together with `get_loop_id` of the
chosen node.  The in-place `tree.body` rewrite is represented by
returning the chosen node. -/
def isolate_loop_body_and_get_itervars (tree : List ForNode) (lineno : Nat)
    (loop_id : Option String) : Except String (ForNode × String) :=
  let candidate_nodes :=
    (tree.filter (loop_candidate lineno loop_id)).map
      (fun node => (node, py_abs_dist (node.lineno.getD 0) lineno))
  match select_min_dis candidate_nodes with
  | none => Except.error
      "Could not locate reloading loop. Please make sure the code in the line that uses reloading does not change between reloads."
  | some (node, _) => Except.ok (node, get_loop_id node)

/-! ## get_loop_code (reloading.py lines 245-264)

`get_loop_code` loops forever: parse the file
(`parse_file_until_successful`), try the locator, return the compiled
body on success, and on LookupError call `handle_exception(fpath)` and
retry.  Each round of that loop is modelled by one element of
`attempts`: the list of `ast.For` nodes the fresh parse produced and
the operator signal `handle_exception` would read if the locator fails
on that parse.  An exhausted list models blocking forever in the retry
loop.  Compilation and `format_itervars` are carried as the chosen node
and its loop id. -/

/-- Result of `get_loop_code`: a located loop (node plus found loop
id), an exception propagated out of `handle_exception`, or blocking
forever in the retry loop. -/
inductive GetLoopResult where
  | found (node : ForNode) (found_loop_id : String)
  | raised (e : PyError)
  | blocked
deriving DecidableEq, Repr

/-- Embedding of `get_loop_code` (lines 245-264). -/
def get_loop_code (fpath : String) (lineno : Nat) (loop_id : Option String) :
    List (List ForNode × String) → GetLoopResult
  | [] => GetLoopResult.blocked
  | (tree, signal) :: rest =>
    match isolate_loop_body_and_get_itervars tree lineno loop_id with
    | Except.ok (node, found_loop_id) => GetLoopResult.found node found_loop_id
    | Except.error _ =>
      match handle_exception fpath signal with
      | HandleOutcome.raiseNew m => GetLoopResult.raised (PyError.exception m)
      | _ => get_loop_code fpath lineno loop_id rest

/-- Whether a `get_loop_code` outcome lets a LookupError escape. -/
def is_lookup_raise : GetLoopResult → Bool
  | GetLoopResult.raised (PyError.lookupError _) => true
  | _ => false

/-! ## EnvironmentBinder + ReloadScheduler, loop mode:
_reloading_loop (reloading.py lines 292-318)

The loop enumerates `seq`; iteration `i` first reloads the body via
`get_loop_code` when `i % every == 0`, then injects the iteration value
and executes the compiled body, and when that execution raises it calls
`handle_exception(fpath)` — continuing with the next element whether
the handler returned True (skip) or False (retry), and aborting with
the handler's fresh exception when the operator asked to raise.  The
reload itself and the body execution are abstracted: `raises i` tells
whether executing the body of iteration `i` raises, `signals i` is the
operator input `handle_exception` reads then.  The result records, per
executed iteration, whether a reload was due and whether the body
raised, together with the Python return value (line 318 returns `[]`). -/

/-- Per-iteration record of the loop model. -/
structure IterRec where
  reloaded : Bool
  raised : Bool
deriving DecidableEq, Repr

/-- Recursive body of the loop of lines 304-317, carrying the
`enumerate` counter `i`. -/
def reloading_loop_aux (fpath : String) (every : Nat) (raises : Nat → Bool)
    (signals : Nat → String) : List Nat → Nat → List IterRec × Except PyError (List Nat)
  | [], _ => ([], Except.ok [])
  | _ :: rest, i =>
    let rcd : IterRec := ⟨i % every == 0, raises i⟩
    if raises i then
      match handle_exception fpath (signals i) with
      | HandleOutcome.raiseNew m => ([rcd], Except.error (PyError.exception m))
      | _ =>
        let r := reloading_loop_aux fpath every raises signals rest (i + 1)
        (rcd :: r.1, r.2)
    else
      let r := reloading_loop_aux fpath every raises signals rest (i + 1)
      (rcd :: r.1, r.2)

/-- Embedding of `_reloading_loop` (lines 292-318): run the enumerate
loop from counter 0; the second component is what the Python call
returns (or the exception it raises). -/
def reloading_loop (seq : List Nat) (every : Nat) (raises : Nat → Bool)
    (signals : Nat → String) (fpath : String) : List IterRec × Except PyError (List Nat) :=
  reloading_loop_aux fpath every raises signals seq 0

/-! ## Function mode: the reload decision of `wrapped` inside
_reloading_function (reloading.py lines 575-591)

`_reloading_function` defaults `reloadOnException=True` (line 521) and
keeps `state = {"func": None, "reloads": 0}` (lines 575-578).  Each
invocation of `wrapped` first runs the reload decision of lines
581-591: when `reloadOnException` is set, reload only if the cached
function is None; otherwise reload when `reloads % every == 0` (keeping
the old function when `get_reloaded_function` returns None, via the
`or`) and increment the counter.  `reloaded_result` stands for what
`get_reloaded_function` would return on this invocation (None on
lookup failure).  The Bool result reports whether
`get_reloaded_function` was called, i.e. whether the source was
re-loaded and re-compiled for this invocation. -/

/-- The `state` dict of `_reloading_function` (lines 575-578), with the
cached compiled function abstracted to an identifying number. -/
structure FuncState where
  func : Option Nat
  reloads : Nat
deriving DecidableEq, Repr

/-- Embedding of the reload decision at the top of `wrapped`
(lines 580-591). -/
def wrapped (reloadOnException : Bool) (every : Nat) (reloaded_result : Option Nat)
    (state : FuncState) : FuncState × Bool :=
  if reloadOnException then
    if state.func = none then ({ state with func := reloaded_result }, true)
    else (state, false)
  else if state.reloads % every == 0 then
    ({ func := (match reloaded_result with
                | some f => some f
                | none => state.func),
       reloads := state.reloads + 1 }, true)
  else (state, false)

/-! ## Public entry point: reloading (reloading.py lines 87-131) and
no_iter_partial (lines 75-79)

`reloading(fn_or_seq=None, every=1, forever=None)` dispatches on the
truthiness and type of `fn_or_seq`: a function goes to
`_reloading_function`, an iterable to `_reloading_loop`, anything else
to `_reloading_class`; with a falsy `fn_or_seq` and `forever` set it
starts an endless loop, and otherwise it returns the `no_iter_partial`
decorator object.  The argument values are modelled by the variants the
`isinstance` chain distinguishes; loop mode's eager protocol and `[]`
return value are the subject of `reloading_loop` above, so the dispatch
result only names the branch taken. -/

/-- The argument values `reloading` dispatches on. -/
inductive PyVal where
  | funcVal (name : String)
  | iterVal (elems : List Nat)
  | otherVal
deriving DecidableEq, Repr

/-- Python truthiness of the `fn_or_seq` argument (`if fn_or_seq:`,
line 109): None is falsy, a function is truthy, a sequence is truthy
iff non-empty. -/
def truthy : Option PyVal → Bool
  | none => false
  | some (PyVal.funcVal _) => true
  | some (PyVal.iterVal elems) => !elems.isEmpty
  | some PyVal.otherVal => true

/-- What a `reloading(...)` call evaluates to, by branch. -/
inductive RResult where
  | funcWrapper (name : String) (every : Nat)
  | loopRet (ret : List Nat)
  | foreverLoop
  | classWrapper
  | decoratorObj (every : Nat)
deriving DecidableEq, Repr

/-- Embedding of the dispatch of `reloading` (lines 109-131).  Loop
mode's return value `[]` is that of `_reloading_loop` (line 318). -/
def reloading (fn_or_seq : Option PyVal) (every : Nat) (forever : Bool) : RResult :=
  if truthy fn_or_seq then
    match fn_or_seq with
    | some (PyVal.funcVal n) => RResult.funcWrapper n every
    | some (PyVal.iterVal _) => RResult.loopRet []
    | _ => RResult.classWrapper
  else if forever then RResult.foreverLoop
  else RResult.decoratorObj every

/-- Embedding of `no_iter_partial.__iter__` (lines 75-79): iterating
the decorator object raises a TypeError with the descriptive message
instead of yielding anything. -/
def no_iter_decorator_iter : Except PyError (List Nat) :=
  Except.error (PyError.typeError
    "Nothing to iterate over. Please pass an iterable to reloading.")

/-! ## Example inputs used by the concrete theorems below -/

/-- A `for` loop over `reloading(range(10))` recorded at line 10. -/
def exNodeA : ForNode :=
  ⟨"Name(i)", "Call(reloading, range)", true, some 10⟩

/-- A different `for` loop over `reloading(lst)` sitting at line 1. -/
def exNodeB : ForNode :=
  ⟨"Name(j)", "Call(reloading, lst)", true, some 1⟩

/-- A decorator list mixing `reloading` markers with another decorator. -/
def exDecorators : List DecNode :=
  [DecNode.nameNode "reloading", DecNode.nameNode "cache", DecNode.callNode "reloading"]

/-! # Theorems -/

/-- Every name of `used` is at most as long as the first-longest name
that `py_max_by_len` selects. -/
theorem py_max_by_len_le (l : List String) :
    ∀ x ∈ l, x.length ≤ (py_max_by_len l).length := by
  induction l with
  | nil => intro x hx; cases hx
  | cons a rest ih =>
    intro x hx
    cases rest with
    | nil =>
      rcases List.mem_cons.mp hx with hxa | hxn
      · subst hxa; exact Nat.le_refl _
      · cases hxn
    | cons b rest2 =>
      simp only [py_max_by_len]
      rcases List.mem_cons.mp hx with hxa | hxrest
      · subst hxa
        split
        · exact Nat.le_refl _
        · next hcond => omega
      · have hle := ih x hxrest
        split
        · next hcond => exact hle.trans hcond
        · exact hle

/-- Claim C6: for every non-empty set of names already used in the
caller's scope, `unique_name` picks a name that is not a member of that
set — the synthetic injection name cannot overwrite any existing caller
variable, even one that equals the usual synthetic name. -/
theorem C6_unique_name_avoids_collisions (used : List String) (h : used ≠ []) :
    unique_name used ∉ used := by
  intro hmem
  have hle := py_max_by_len_le used (unique_name used) hmem
  have hlen : (unique_name used).length = (py_max_by_len used).length + 1 := by
    rw [unique_name, String.length_append]
    rfl
  omega

/-- Claim C6 witness: in a scope already holding `i` and the usual
synthetic name `i0`, the chosen name avoids both. -/
theorem C6_unique_name_avoids_collisions_witness :
    (["i", "i0"] : List String) ≠ [] ∧ unique_name ["i", "i0"] ∉ (["i", "i0"] : List String) :=
  ⟨by decide, C6_unique_name_avoids_collisions ["i", "i0"] (by decide)⟩

/-- Claim C7: whenever `load_file` returns, the returned text is
non-empty — empty reads are retried, never returned. -/
theorem C7_load_file_never_returns_empty (reads : List String) (s : String)
    (h : load_file reads = some s) : s ≠ "" := by
  induction reads with
  | nil => simp [load_file] at h
  | cons r rest ih =>
    by_cases hr : r = ""
    · rw [load_file, if_pos hr] at h
      exact ih h
    · rw [load_file, if_neg hr] at h
      have hs : s = r ++ "\n" := (Option.some.injEq _ _ ▸ h).symm
      subst hs
      intro he
      have hlen := congrArg String.length he
      rw [String.length_append] at hlen
      simp at hlen
      exact absurd hlen.2 (by decide)

/-- Claim C7 witness: a transiently empty read followed by content
yields the content with a newline, which is non-empty. -/
theorem C7_load_file_never_returns_empty_witness :
    load_file ["", "x"] = some "x\n" ∧ ("x\n" : String) ≠ "" :=
  ⟨by decide, C7_load_file_never_returns_empty ["", "x"] "x\n" (by decide)⟩

/-- Claim C8: `strip_reloading_decorator` removes exactly the
decorators named `reloading`: no surviving decorator is named
`reloading`, the surviving list is a sublist of the original (same
relative order), and every decorator not named `reloading` survives. -/
theorem C8_strip_removes_exactly_reloading (decorator_list : List DecNode) :
    (∀ d ∈ strip_reloading_decorator decorator_list, get_decorator_name d ≠ "reloading") ∧
    (strip_reloading_decorator decorator_list).Sublist decorator_list ∧
    (∀ d ∈ decorator_list, get_decorator_name d ≠ "reloading" →
      d ∈ strip_reloading_decorator decorator_list) := by
  refine ⟨?_, ?_, ?_⟩
  · intro d hd
    have hp := (List.mem_filter.mp hd).2
    simpa using hp
  · exact List.filter_sublist _
  · intro d hd hname
    exact List.mem_filter.mpr ⟨hd, by simpa using hname⟩

/-- Claim C8 witness: with two `reloading` markers around a `cache`
decorator, `cache` survives the stripping. -/
theorem C8_strip_removes_exactly_reloading_witness :
    DecNode.nameNode "cache" ∈ strip_reloading_decorator exDecorators :=
  (C8_strip_removes_exactly_reloading exDecorators).2.2
    (DecNode.nameNode "cache") (by decide) (by decide)

/-- Claim C9: calling `reloading` with no function/iterable argument
and `forever` unset returns the decorator object, and iterating that
object raises a TypeError with the descriptive message instead of the
opaque partial-object error. -/
theorem C9_no_argument_returns_decorator (every : Nat) :
    reloading none every false = RResult.decoratorObj every ∧
    no_iter_decorator_iter = Except.error (PyError.typeError
      "Nothing to iterate over. Please pass an iterable to reloading.") :=
  ⟨rfl, rfl⟩

/-- Claim C1 (code bug): in function mode with `every = 1` and the
default `reloadOnException = True`, the wrapper reloads on the first
invocation (cached function still None) but does not reload on the
second invocation, contradicting the docstring and the spec, which
promise a reload before every invocation. -/
theorem C1_function_mode_skips_reload_on_second_invocation :
    reloading (some (PyVal.funcVal "f")) 1 false = RResult.funcWrapper "f" 1 ∧
    (wrapped true 1 (some 1) ⟨none, 0⟩).2 = true ∧
    (wrapped true 1 (some 2) (wrapped true 1 (some 1) ⟨none, 0⟩).1).2 = false :=
  ⟨rfl, by decide, by decide⟩

/-- Claim C3 counterexample: with the original exception being a
ZeroDivisionError, answering `e` makes `handle_exception` raise a fresh
generic Exception naming the file — not the original exception, so the
escaping exception differs from the one originally caught. -/
theorem C3_counterexample :
    handle_exception "train.py" "e" =
      HandleOutcome.raiseNew "Raise exception for file: \"train.py\"" ∧
    ("Raise exception for file: \"train.py\"" : String) ≠
      "ZeroDivisionError: division by zero" :=
  ⟨by decide, by decide⟩

/-- Claim C3 (amended): whenever the operator answers the prompt with
the designated raise input (`e`, case-insensitively), `handle_exception`
raises a newly constructed generic Exception whose message names the
file; the original exception is not retained in the outcome at all, so
what escapes is never the originally caught exception. -/
theorem C3_raise_input_raises_fresh_exception (fpath signal : String)
    (h : py_lower signal = "e") :
    handle_exception fpath signal =
      HandleOutcome.raiseNew ("Raise exception for file: \"" ++ fpath ++ "\"") := by
  rw [handle_exception, h]
  simp

/-- Claim C3 witness: the uppercase raise input also triggers the fresh
exception for a concrete path. -/
theorem C3_raise_input_raises_fresh_exception_witness :
    handle_exception "train.py" "E" =
      HandleOutcome.raiseNew ("Raise exception for file: \"" ++ "train.py" ++ "\"") :=
  C3_raise_input_raises_fresh_exception "train.py" "E" (by decide)

/-- The fold that models the stable sort-by-distance plus head: its
result is one of the folded pairs. -/
theorem select_min_foldl_mem (rest : List (ForNode × Nat)) :
    ∀ b : ForNode × Nat,
      rest.foldl (fun best cur => if cur.2 < best.2 then cur else best) b ∈ b :: rest := by
  induction rest with
  | nil => intro b; simp [List.foldl]
  | cons c rest2 ih =>
    intro b
    simp only [List.foldl]
    rcases List.mem_cons.mp (ih (if c.2 < b.2 then c else b)) with h | h
    · rw [h]
      split <;> simp
    · simp [List.mem_cons.mpr (Or.inr h)]

/-- The fold that models the stable sort-by-distance plus head: its
result has minimal distance among the folded pairs. -/
theorem select_min_foldl_le (rest : List (ForNode × Nat)) :
    ∀ (b p : ForNode × Nat), p ∈ b :: rest →
      (rest.foldl (fun best cur => if cur.2 < best.2 then cur else best) b).2 ≤ p.2 := by
  induction rest with
  | nil =>
    intro b p hp
    rcases List.mem_cons.mp hp with h | h
    · subst h; exact Nat.le_refl _
    · cases h
  | cons c rest2 ih =>
    intro b p hp
    simp only [List.foldl]
    rcases List.mem_cons.mp hp with h | h
    · subst h
      have h1 := ih (if c.2 < p.2 then c else p) _ (List.mem_cons_self _ _)
      have h2 : (if c.2 < p.2 then c else p).2 ≤ p.2 := by split <;> omega
      omega
    · rcases List.mem_cons.mp h with h2 | h2
      · subst h2
        have h1 := ih (if p.2 < b.2 then p else b) _ (List.mem_cons_self _ _)
        have h3 : (if p.2 < b.2 then p else b).2 ≤ p.2 := by split <;> omega
        omega
      · exact ih _ p (List.mem_cons.mpr (Or.inr h2))

/-- `select_min_dis` returns a pair from the candidate list whose
distance component is minimal. -/
theorem select_min_dis_spec (l : List (ForNode × Nat)) (q : ForNode × Nat)
    (h : select_min_dis l = some q) : q ∈ l ∧ ∀ p ∈ l, q.2 ≤ p.2 := by
  cases l with
  | nil => simp [select_min_dis] at h
  | cons b rest =>
    simp only [select_min_dis, Option.some.injEq] at h
    subst h
    exact ⟨select_min_foldl_mem rest b, fun p hp => select_min_foldl_le rest b p hp⟩

/-- Claim C4 counterexample: with a recorded identity key that exactly
matches candidate `exNodeA`, the locator still selects `exNodeB`
(identity key not matching) because `exNodeB` sits on the remembered
line and therefore has the smaller line distance — exact identity-key
matches are not preferred over non-matching candidates. -/
theorem C4_counterexample :
    isolate_loop_body_and_get_itervars [exNodeA, exNodeB] 1 (some (get_loop_id exNodeA))
      = Except.ok (exNodeB, get_loop_id exNodeB) ∧
    loop_candidate 1 (some (get_loop_id exNodeA)) exNodeA = true ∧
    get_loop_id exNodeB ≠ get_loop_id exNodeA :=
  ⟨rfl, by decide, by decide⟩

/-- Claim C4 (amended): when the locator succeeds, the node it selects
is one of the candidates (identity-key match or same recorded line),
the returned identity key is the selected node's key, and the selected
node has minimal line distance among all candidates — no preference is
given to identity-key matches. -/
theorem C4_locator_picks_nearest_candidate (tree : List ForNode) (lineno : Nat)
    (loop_id : Option String) (node : ForNode) (found_loop_id : String)
    (h : isolate_loop_body_and_get_itervars tree lineno loop_id
          = Except.ok (node, found_loop_id)) :
    loop_candidate lineno loop_id node = true ∧
    found_loop_id = get_loop_id node ∧
    ∀ m ∈ tree.filter (loop_candidate lineno loop_id),
      py_abs_dist (node.lineno.getD 0) lineno ≤ py_abs_dist (m.lineno.getD 0) lineno := by
  simp only [isolate_loop_body_and_get_itervars] at h
  split at h
  · exact Except.noConfusion h
  · next a b heq =>
    simp only [Except.ok.injEq, Prod.mk.injEq] at h
    obtain ⟨hn, hf⟩ := h
    subst hn
    obtain ⟨hmem, hmin⟩ := select_min_dis_spec _ _ heq
    rcases List.mem_map.mp hmem with ⟨m, hmf, hme⟩
    simp only [Prod.mk.injEq] at hme
    obtain ⟨hm1, hm2⟩ := hme
    subst hm1
    refine ⟨(List.mem_filter.mp hmf).2, hf.symm, ?_⟩
    intro m2 hm2f
    have hin : (m2, py_abs_dist (m2.lineno.getD 0) lineno) ∈
        (tree.filter (loop_candidate lineno loop_id)).map
          (fun n => (n, py_abs_dist (n.lineno.getD 0) lineno)) :=
      List.mem_map_of_mem _ hm2f
    have hle := hmin _ hin
    rw [hm2]
    exact hle

/-- Claim C4 witness: on the two-candidate example the selected node
`exNodeB` is a candidate found at minimal line distance. -/
theorem C4_locator_picks_nearest_candidate_witness :
    loop_candidate 1 (some (get_loop_id exNodeA)) exNodeB = true :=
  (C4_locator_picks_nearest_candidate [exNodeA, exNodeB] 1 (some (get_loop_id exNodeA))
    exNodeB (get_loop_id exNodeB) rfl).1

/-- Claim C5 counterexample: with zero candidate loops in the parsed
source the locator does produce a LookupError, but `get_loop_code`
consumes it: with a retry answer the call keeps blocking in its retry
loop, and with the raise answer it raises a fresh generic Exception —
in neither case does the LookupError escape to the caller. -/
theorem C5_counterexample :
    isolate_loop_body_and_get_itervars ([] : List ForNode) 5 none = Except.error
      "Could not locate reloading loop. Please make sure the code in the line that uses reloading does not change between reloads." ∧
    get_loop_code "f.py" 5 none [([], "")] = GetLoopResult.blocked ∧
    get_loop_code "f.py" 5 none [([], "e")] =
      GetLoopResult.raised (PyError.exception "Raise exception for file: \"f.py\"") :=
  ⟨rfl, by decide, by decide⟩

/-- Claim C5 (amended): the LookupError raised by the locator never
escapes `get_loop_code`: every failed attempt is routed through the
interactive handler, which either retries (possibly blocking forever)
or raises a fresh generic Exception — the outcome is never a
LookupError. -/
theorem C5_lookup_error_never_escapes (fpath : String) (lineno : Nat)
    (loop_id : Option String) (attempts : List (List ForNode × String)) :
    is_lookup_raise (get_loop_code fpath lineno loop_id attempts) = false := by
  induction attempts with
  | nil => rfl
  | cons att rest ih =>
    obtain ⟨tree, signal⟩ := att
    simp only [get_loop_code]
    cases hiso : isolate_loop_body_and_get_itervars tree lineno loop_id with
    | ok v =>
      obtain ⟨n, fid⟩ := v
      rfl
    | error e =>
      cases hh : handle_exception fpath signal with
      | skipIter => exact ih
      | retry => exact ih
      | raiseNew m => rfl

/-- Claim C2 counterexample: with cadence `every = 2` and the body
raising at iteration 0, iteration 0 reloads and raises, yet iteration 1
— the iteration right after the failure — does not reload, because
`1 % 2 ≠ 0` and nothing overrides the cadence after an exception. -/
theorem C2_counterexample :
    (reloading_loop [10, 20] 2 (fun i => i == 0) (fun _ => "") "f.py").1
      = [⟨true, true⟩, ⟨false, false⟩] ∧
    (reloading_loop [10, 20] 2 (fun i => i == 0) (fun _ => "") "f.py").2
      = Except.ok [] :=
  ⟨by decide, rfl⟩

/-- The reload flag of every executed iteration of the loop body
depends only on the enumerate counter and the cadence: the trace
starting at counter `i` carries exactly the flags
`(i + k) % every == 0`. -/
theorem reloading_loop_aux_reloaded_flags (fpath : String) (every : Nat)
    (raises : Nat → Bool) (signals : Nat → String) :
    ∀ (l : List Nat) (i : Nat),
      (reloading_loop_aux fpath every raises signals l i).1.map IterRec.reloaded
        = (List.range' i (reloading_loop_aux fpath every raises signals l i).1.length).map
            (fun k => k % every == 0) := by
  intro l
  induction l with
  | nil => intro i; simp [reloading_loop_aux]
  | cons a rest ih =>
    intro i
    simp only [reloading_loop_aux]
    by_cases hb : raises i = true
    · rw [if_pos hb]
      cases hh : handle_exception fpath (signals i) with
      | skipIter => simp [List.range', ih (i + 1)]
      | retry => simp [List.range', ih (i + 1)]
      | raiseNew m => simp [List.range']
    · rw [if_neg hb]
      simp [List.range', ih (i + 1)]

/-- Claim C2 (amended): in loop mode a reload happens at iteration `k`
exactly when `k % every == 0`; an exception during the body never
overrides the cadence, so the iteration following a failure reloads
only if it falls on a cadence boundary. -/
theorem C2_reload_only_on_cadence_boundary (seq : List Nat) (every : Nat)
    (raises : Nat → Bool) (signals : Nat → String) (fpath : String) :
    (reloading_loop seq every raises signals fpath).1.map IterRec.reloaded
      = (List.range' 0 (reloading_loop seq every raises signals fpath).1.length).map
          (fun k => k % every == 0) :=
  reloading_loop_aux_reloaded_flags fpath every raises signals seq 0

/-- When the enumerate loop runs to completion it has consumed every
element of the sequence (one trace record per element) and evaluates to
the literal `[]` of line 318. -/
theorem reloading_loop_aux_ok_spec (fpath : String) (every : Nat)
    (raises : Nat → Bool) (signals : Nat → String) :
    ∀ (l : List Nat) (i : Nat) (v : List Nat),
      (reloading_loop_aux fpath every raises signals l i).2 = Except.ok v →
      v = [] ∧ (reloading_loop_aux fpath every raises signals l i).1.length = l.length := by
  intro l
  induction l with
  | nil =>
    intro i v h
    simp only [reloading_loop_aux, Except.ok.injEq] at h
    exact ⟨h.symm, rfl⟩
  | cons a rest ih =>
    intro i v h
    simp only [reloading_loop_aux] at h ⊢
    by_cases hb : raises i = true
    · rw [if_pos hb] at h ⊢
      cases hh : handle_exception fpath (signals i) with
      | skipIter =>
        rw [hh] at h
        obtain ⟨hv, hlen⟩ := ih (i + 1) v h
        exact ⟨hv, by simp [hlen]⟩
      | retry =>
        rw [hh] at h
        obtain ⟨hv, hlen⟩ := ih (i + 1) v h
        exact ⟨hv, by simp [hlen]⟩
      | raiseNew m =>
        rw [hh] at h
        exact Except.noConfusion h
    · rw [if_neg hb] at h ⊢
      obtain ⟨hv, hlen⟩ := ih (i + 1) v h
      exact ⟨hv, by simp [hlen]⟩

/-- Claim C10: a loop-mode call runs the whole reload protocol eagerly
inside the call: when it returns normally it has executed one iteration
per element of `seq` and hands back the empty list, so the `for`
statement at the call site iterates over an empty sequence. -/
theorem C10_loop_mode_returns_empty_list (seq : List Nat) (every : Nat)
    (raises : Nat → Bool) (signals : Nat → String) (fpath : String) (v : List Nat)
    (h : (reloading_loop seq every raises signals fpath).2 = Except.ok v) :
    v = [] ∧ (reloading_loop seq every raises signals fpath).1.length = seq.length :=
  reloading_loop_aux_ok_spec fpath every raises signals seq 0 v h

/-- Claim C10 witness: a two-element sequence with no failures runs
both iterations and returns `[]`. -/
theorem C10_loop_mode_returns_empty_list_witness :
    ([] : List Nat) = [] ∧
    (reloading_loop [5, 6] 1 (fun _ => false) (fun _ => "") "f.py").1.length
      = ([5, 6] : List Nat).length :=
  C10_loop_mode_returns_empty_list [5, 6] 1 (fun _ => false) (fun _ => "") "f.py" [] rfl

end Reloading
